import Mathlib

-- Verification of the crime dashboard aggregation pipeline (src/OS/App_final.py).
-- The pandas dataframes are embedded as Lean lists of structures; each definition
-- cites the source lines it translates.

namespace CrimeDashboard

/-- A calendar date (the value of a pandas ".dt.date" accessor): time-of-day removed. -/
structure Date where
  year : Nat
  month : Nat
  day : Nat
deriving DecidableEq

/-- Comparison of calendar dates, lexicographic on (year, month, day), matching the
Python ordering of datetime.date values. -/
def Date.le (a b : Date) : Bool :=
  decide (a.year < b.year ∨
    (a.year = b.year ∧ (a.month < b.month ∨ (a.month = b.month ∧ a.day ≤ b.day))))

/-- A pandas Timestamp as stored in the RANDOM_DATE column after pd.to_datetime
(line 456): a calendar date plus a time-of-day component (seconds within the day).
The ".dt.date" accessor keeps only the date field. -/
structure Timestamp where
  date : Date
  secondsOfDay : Nat
deriving DecidableEq

/-- One row of the crime events table crime_gdf (lines 399-405): the CRIME_TYPE label,
the RANDOM_DATE timestamp, and the H3_11 hex-cell identifier linking to the grid. -/
structure CrimeEvent where
  crimeType : String
  randomDate : Timestamp
  h3_11 : String
deriving DecidableEq

/-- One row of the hex grid table data_grid_gdf (lines 537-540): the H3_CELL_11 key and
the per-cell environmental attribute counts used by the four insight blocks. The field
names transliterate the source columns "LIGHT COUNT", "GREENSPACE COUNT",
"RESIDENITAL BUILDING COUNT", "RETAIL BUILDING COUNT", "MIXED_USE_COUNT",
"RESIDENTIAL SITE COUNT", "RETAIL SITE COUNT", "INUSTRIAL SITE COUNT". -/
structure GridCell where
  h3_cell_11 : String
  lightCount : Nat
  greenspaceCount : Nat
  residentialBuildingCount : Nat
  retailBuildingCount : Nat
  mixedUseCount : Nat
  residentialSiteCount : Nat
  retailSiteCount : Nat
  industrialSiteCount : Nat
deriving DecidableEq

/-- Lines 479-483: crime_filtered = crime_gdf rows whose CRIME_TYPE is in
selected_crimes and whose RANDOM_DATE, reduced to its calendar date by ".dt.date",
lies between start_date and end_date, both comparisons non-strict. -/
def crime_filtered (crime_gdf : List CrimeEvent) (selected_crimes : List String)
    (start_date end_date : Date) : List CrimeEvent :=
  crime_gdf.filter (fun e =>
    decide (e.crimeType ∈ selected_crimes) &&
      Date.le start_date e.randomDate.date && Date.le e.randomDate.date end_date)

/-- The shape shared by every pandas "groupby(key).size()" in the source
(lines 543, 560, 582, ...): one output pair per distinct key, carrying the number of
input rows with that key. -/
def groupCounts {α κ : Type} [DecidableEq κ] (f : α → κ) (l : List α) : List (κ × Nat) :=
  ((l.map f).dedup).map (fun k => (k, l.countP (fun x => decide (f x = k))))

/-- Line 543: crime_agg = crime_filtered.groupby("H3_11").size().reset_index(name="Count"). -/
def crime_agg (cf : List CrimeEvent) : List (String × Nat) :=
  groupCounts (fun e => e.h3_11) cf

/-- One row of live_grid: a grid cell together with the "Count" column produced by the
left merge, absent (NaN in pandas) when the cell id never occurs in crime_agg. -/
structure LiveRow where
  cell : GridCell
  count : Option Nat
deriving DecidableEq

/-- Line 546: live_grid = pd.merge(data_grid_gdf, crime_agg, how="left",
left_on="H3_CELL_11", right_on="H3_11"). Because crime_agg has one row per distinct
H3_11 key, the left merge yields exactly one output row per grid row, with the Count
looked up by key. -/
def live_grid (data_grid_gdf : List GridCell) (agg : List (String × Nat)) : List LiveRow :=
  data_grid_gdf.map (fun c => ⟨c, agg.lookup c.h3_cell_11⟩)

/-- Line 549: live_grid_filt = live_grid[live_grid["Count"].notna()]. -/
def live_grid_filt (lg : List LiveRow) : List LiveRow :=
  lg.filter (fun r => r.count.isSome)

/-- Lines 554-557: the CHARTMONTH column, the RANDOM_DATE truncated to its
calendar month by ".dt.to_period('M')". -/
def toChartMonth (e : CrimeEvent) : Nat × Nat :=
  (e.randomDate.date.year, e.randomDate.date.month)

/-- One row of a long-format chart table: CHARTMONTH, Count, Group. -/
structure SeriesRow where
  chartMonth : Nat × Nat
  count : Nat
  group : String
deriving DecidableEq

/-- The monthly-series shape shared by crime_dates and every bucket series
(lines 560-563, 582-585, ...): group the events by CHARTMONTH, count each group,
then tag every row with the series label. -/
def monthly_series (l : List CrimeEvent) (g : String) : List SeriesRow :=
  (groupCounts toChartMonth l).map (fun p => ⟨p.1, p.2, g⟩)

/-- Lines 560-563: crime_dates = crime_filtered.groupby("CHARTMONTH").size() with
Group set to "Total crime". -/
def crime_dates (cf : List CrimeEvent) : List SeriesRow :=
  monthly_series cf "Total crime"

/-- The row pattern shared by every theme bucket: the rows of live_grid_filt whose cell
satisfies the bucket threshold predicate. -/
def bucket_filt (lg : List LiveRow) (p : GridCell → Bool) : List LiveRow :=
  lg.filter (fun r => p r.cell)

/-- The headline total shared by every theme bucket: the sum of the merged "Count"
column over the bucket rows (for example line 576). -/
def bucket_total (lg : List LiveRow) (p : GridCell → Bool) : Nat :=
  ((bucket_filt lg p).map (fun r => r.count.getD 0)).sum

/-- The event subset shared by every theme bucket: the filtered events whose H3_11 is
among the bucket cells, via the ".isin" filter (for example line 579). -/
def bucket_crimes (cf : List CrimeEvent) (lg : List LiveRow) (p : GridCell → Bool) :
    List CrimeEvent :=
  cf.filter (fun e => decide (e.h3_11 ∈ (bucket_filt lg p).map (fun r => r.cell.h3_cell_11)))

/-- The monthly series shared by every theme bucket (for example lines 582-585). -/
def bucket_dates (cf : List CrimeEvent) (lg : List LiveRow) (p : GridCell → Bool)
    (g : String) : List SeriesRow :=
  monthly_series (bucket_crimes cf lg p) g

/-- The sum of the merged "Count" column over the whole crime-present cell set
live_grid_filt: the joined total the per-bucket totals are compared against. -/
def total_crime_count (lg : List LiveRow) : Nat :=
  (lg.map (fun r => r.count.getD 0)).sum

/-- Line 573: cells of live_grid_filt with "LIGHT COUNT" equal to 0. -/
def nolight_filt (lg : List LiveRow) : List LiveRow :=
  lg.filter (fun r => decide (r.cell.lightCount = 0))

/-- Line 576: nolight = nolight_filt["Count"].sum(). -/
def nolight (lg : List LiveRow) : Nat :=
  ((nolight_filt lg).map (fun r => r.count.getD 0)).sum

/-- Line 579: the filtered events whose H3_11 is among the dark cells. -/
def nolight_crimes (cf : List CrimeEvent) (lg : List LiveRow) : List CrimeEvent :=
  cf.filter (fun e => decide (e.h3_11 ∈ (nolight_filt lg).map (fun r => r.cell.h3_cell_11)))

/-- Lines 582-585: the monthly series of the dark cells, labelled "Dark Areas". -/
def nolight_dates (cf : List CrimeEvent) (lg : List LiveRow) : List SeriesRow :=
  monthly_series (nolight_crimes cf lg) "Dark Areas"

/-- Line 590: cells with "LIGHT COUNT" between 1 and 2. -/
def lightmid_filt (lg : List LiveRow) : List LiveRow :=
  lg.filter (fun r => decide (1 ≤ r.cell.lightCount ∧ r.cell.lightCount ≤ 2))

/-- Line 593: lightmid = lightmid_filt["Count"].sum(). -/
def lightmid (lg : List LiveRow) : Nat :=
  ((lightmid_filt lg).map (fun r => r.count.getD 0)).sum

/-- Line 596. -/
def midlight_crimes (cf : List CrimeEvent) (lg : List LiveRow) : List CrimeEvent :=
  cf.filter (fun e => decide (e.h3_11 ∈ (lightmid_filt lg).map (fun r => r.cell.h3_cell_11)))

/-- Lines 599-602: the monthly series labelled "Slightly lit". -/
def midlight_dates (cf : List CrimeEvent) (lg : List LiveRow) : List SeriesRow :=
  monthly_series (midlight_crimes cf lg) "Slightly lit"

/-- Line 607: cells with "LIGHT COUNT" above 2. -/
def light_filt (lg : List LiveRow) : List LiveRow :=
  lg.filter (fun r => decide (2 < r.cell.lightCount))

/-- Line 610: light = light_filt["Count"].sum(). -/
def light (lg : List LiveRow) : Nat :=
  ((light_filt lg).map (fun r => r.count.getD 0)).sum

/-- Line 613. -/
def light_crimes (cf : List CrimeEvent) (lg : List LiveRow) : List CrimeEvent :=
  cf.filter (fun e => decide (e.h3_11 ∈ (light_filt lg).map (fun r => r.cell.h3_cell_11)))

/-- Lines 616-619: the monthly series labelled "Well Lit". -/
def light_dates (cf : List CrimeEvent) (lg : List LiveRow) : List SeriesRow :=
  monthly_series (light_crimes cf lg) "Well Lit"

/-- Line 678: cells with "GREENSPACE COUNT" equal to 0. -/
def nogreenspace_filt (lg : List LiveRow) : List LiveRow :=
  lg.filter (fun r => decide (r.cell.greenspaceCount = 0))

/-- Line 681. -/
def nogreenspace (lg : List LiveRow) : Nat :=
  ((nogreenspace_filt lg).map (fun r => r.count.getD 0)).sum

/-- Line 695: cells with "GREENSPACE COUNT" at least 1. -/
def greenspace_filt (lg : List LiveRow) : List LiveRow :=
  lg.filter (fun r => decide (1 ≤ r.cell.greenspaceCount))

/-- Line 698. -/
def greenspace (lg : List LiveRow) : Nat :=
  ((greenspace_filt lg).map (fun r => r.count.getD 0)).sum

/-- Line 755: cells with "RESIDENITAL BUILDING COUNT" at least 1. -/
def residential_filt (lg : List LiveRow) : List LiveRow :=
  lg.filter (fun r => decide (1 ≤ r.cell.residentialBuildingCount))

/-- Line 758. -/
def residential (lg : List LiveRow) : Nat :=
  ((residential_filt lg).map (fun r => r.count.getD 0)).sum

/-- Line 772: cells with "RETAIL BUILDING COUNT" at least 1. -/
def retail_filt (lg : List LiveRow) : List LiveRow :=
  lg.filter (fun r => decide (1 ≤ r.cell.retailBuildingCount))

/-- Line 775. -/
def retail (lg : List LiveRow) : Nat :=
  ((retail_filt lg).map (fun r => r.count.getD 0)).sum

/-- Line 789: cells with "MIXED_USE_COUNT" at least 1. -/
def mixeduse_filt (lg : List LiveRow) : List LiveRow :=
  lg.filter (fun r => decide (1 ≤ r.cell.mixedUseCount))

/-- Line 792. -/
def mixeduse (lg : List LiveRow) : Nat :=
  ((mixeduse_filt lg).map (fun r => r.count.getD 0)).sum

/-- Line 860: cells with "RESIDENTIAL SITE COUNT" at least 1. -/
def residential_site_filt (lg : List LiveRow) : List LiveRow :=
  lg.filter (fun r => decide (1 ≤ r.cell.residentialSiteCount))

/-- Line 863. -/
def residential_site (lg : List LiveRow) : Nat :=
  ((residential_site_filt lg).map (fun r => r.count.getD 0)).sum

/-- Line 877: cells with "RETAIL SITE COUNT" at least 1. -/
def retail_site_filt (lg : List LiveRow) : List LiveRow :=
  lg.filter (fun r => decide (1 ≤ r.cell.retailSiteCount))

/-- Line 880. -/
def retail_site (lg : List LiveRow) : Nat :=
  ((retail_site_filt lg).map (fun r => r.count.getD 0)).sum

/-- Line 894: cells with "INUSTRIAL SITE COUNT" at least 1. -/
def industrial_site_filt (lg : List LiveRow) : List LiveRow :=
  lg.filter (fun r => decide (1 ≤ r.cell.industrialSiteCount))

/-- Line 897. -/
def industrial_site (lg : List LiveRow) : Nat :=
  ((industrial_site_filt lg).map (fun r => r.count.getD 0)).sum

/-- Line 359: the meter-to-degree conversion buf_distance / 111320 used by the buffer. -/
def radius_degrees (buf_distance : ℚ) : ℚ := buf_distance / 111320

/-- An axis-aligned bounding box in the order produced by geopandas total_bounds:
minx, miny, maxx, maxy. -/
structure Bounds where
  minx : ℚ
  miny : ℚ
  maxx : ℚ
  maxy : ℚ
deriving DecidableEq

/-- Lines 359-365: buffer_geom = Point(lon, lat).buffer(buf_distance / 111320), and
bounds = buffer_gdf.total_bounds. A shapely point buffer is a regular polygon whose
vertex angles include 0, a half pi, pi and three halves pi, so its bounding box is
exactly the square of half-width radius_degrees centred on the point. -/
def buffer_bounds (lon lat buf_distance : ℚ) : Bounds :=
  ⟨lon - radius_degrees buf_distance, lat - radius_degrees buf_distance,
   lon + radius_degrees buf_distance, lat + radius_degrees buf_distance⟩

/-- Membership of a point in a bounding box. -/
def Bounds.containsPoint (b : Bounds) (x y : ℚ) : Prop :=
  b.minx ≤ x ∧ x ≤ b.maxx ∧ b.miny ≤ y ∧ y ≤ b.maxy

/-- The chart attributes computed by generate_crime_trend_chart that carry logic:
the y-axis scale domain and the colour scale domain. -/
structure TrendChart where
  title : String
  yDomainLo : ℚ
  yDomainHi : ℚ
  colorDomain : List String
deriving DecidableEq

/-- Lines 119-162: generate_crime_trend_chart. max_count = df["Count"].max()
(line 122); the y scale domain is [0, max_count * 1.2] (line 145); the colour scale
domain is df["Group"].unique() (line 125). The float literal 1.2 is the rational
12 / 10. -/
def generate_crime_trend_chart (df : List SeriesRow) (title : String) : TrendChart :=
  ⟨title, 0, (((df.map (fun r => r.count)).foldr max 0 : Nat) : ℚ) * (12 / 10),
   (df.map (fun r => r.group)).dedup⟩

/-- A spatial query as assembled by build_query: the named source plus the centre
point and radius interpolated into the ST_DISTANCE predicate. -/
structure SpatialQuery where
  source : String
  lon : ℚ
  lat : ℚ
  buf_distance : Nat
deriving DecidableEq

/-- Lines 107-115: build_query(source, lon, lat, buf_distance) selects the rows of the
source whose geography lies within buf_distance of the point. -/
def build_query (source : String) (lon lat : ℚ) (buf_distance : Nat) : SpatialQuery :=
  ⟨source, lon, lat, buf_distance⟩

/-- Lines 250-264: the layer checkboxes are created only when buf_distance > 0, so
with a zero radius no layer can be marked selected. -/
def selected_layers_map (buf_distance : Nat) (checked : String → Bool) : String → Bool :=
  fun layer => if 0 < buf_distance then checked layer else false

/-- Lines 349-421: the sidebar fetch block. With a matched address and a positive
radius, one spatial query per checked layer is issued through get_geodata
(lines 367-405); with a zero radius the block issues no queries and emits the notice
of lines 407-421. The result pairs the issued queries with the emitted notices. -/
def sidebar_fetch (hasQuery hasAddress : Bool) (checked : String → Bool)
    (lon lat : ℚ) (buf_distance : Nat) : List SpatialQuery × List String :=
  if hasQuery && hasAddress then
    if 0 < buf_distance then
      ((if selected_layers_map buf_distance checked "Buildings" then
          [build_query "DATA_OPS_TESTING_DB.COLLATERAL_SCH.ES_FINAL_NGDBUILD_INDEXED"
            lon lat buf_distance] else []) ++
       (if selected_layers_map buf_distance checked "Street Lights" then
          [build_query "DATA_OPS_TESTING_DB.COLLATERAL_SCH.ES_FINAL_NGDSTRTLGHT_INDEXED"
            lon lat buf_distance] else []) ++
       (if selected_layers_map buf_distance checked "Land Use" then
          [build_query "DATA_OPS_TESTING_DB.COLLATERAL_SCH.ES_NGDLUSITE_AOI"
            lon lat buf_distance] else []) ++
       (if selected_layers_map buf_distance checked "Greenspace" then
          [build_query "DATA_OPS_TESTING_DB.COLLATERAL_SCH.ES_OPENGS_AOI"
            lon lat buf_distance] else []) ++
       (if selected_layers_map buf_distance checked "Crime" then
          [build_query "DATA_OPS_TESTING_DB.COLLATERAL_SCH.ES_FINAL_CRIME_INDEXED"
            lon lat buf_distance] else []), [])
    else ([], ["Please increase buffer size"])
  else ([], [])

/-- Lines 453-502: the crime selection flow of the Crime panel. crime_options is the
list of distinct crime types present (line 459); selected_crimes is initialised to the
empty list (line 462) and collects the checked types (lines 466-468); a non-empty
selection runs the date filter of lines 479-483, otherwise the fallback filter of
line 502 runs over the selected_crimes list already in scope. A genuinely undefined
name would surface here as an error value. -/
def crime_selection_flow (crime_gdf : List CrimeEvent) (checked : String → Bool)
    (start_date end_date : Date) : Except String (List CrimeEvent) :=
  let crime_options := (crime_gdf.map (fun e => e.crimeType)).dedup
  let selected_crimes := crime_options.filter checked
  if selected_crimes.isEmpty then
    Except.ok (crime_gdf.filter (fun e => decide (e.crimeType ∈ selected_crimes)))
  else
    Except.ok (crime_filtered crime_gdf selected_crimes start_date end_date)

/-- Concrete scenario grid cell A: zero street lights. -/
def cellA : GridCell := ⟨"A", 0, 0, 0, 0, 0, 0, 0, 0⟩

/-- Concrete scenario grid cell B: one street light. -/
def cellB : GridCell := ⟨"B", 1, 0, 0, 0, 0, 0, 0, 0⟩

/-- Concrete scenario grid cell C: five street lights. -/
def cellC : GridCell := ⟨"C", 5, 0, 0, 0, 0, 0, 0, 0⟩

/-- The concrete scenario grid with cells A, B, C. -/
def gridC2 : List GridCell := [cellA, cellB, cellC]

/-- Concrete scenario events: three in cell A, two in cell B, none in cell C. -/
def evA1 : CrimeEvent := ⟨"Burglary", ⟨⟨2024, 1, 15⟩, 34200⟩, "A"⟩

def evA2 : CrimeEvent := ⟨"Assault", ⟨⟨2024, 1, 20⟩, 0⟩, "A"⟩

def evA3 : CrimeEvent := ⟨"Burglary", ⟨⟨2024, 2, 10⟩, 7200⟩, "A"⟩

def evB1 : CrimeEvent := ⟨"Burglary", ⟨⟨2024, 1, 5⟩, 60⟩, "B"⟩

def evB2 : CrimeEvent := ⟨"Assault", ⟨⟨2024, 2, 25⟩, 120⟩, "B"⟩

/-- The concrete scenario filtered event table. -/
def eventsC2 : List CrimeEvent := [evA1, evA2, evA3, evB1, evB2]

/-- The concrete scenario joined, crime-present cell set. -/
def lgC2 : List LiveRow := live_grid_filt (live_grid gridC2 (crime_agg eventsC2))

theorem Date.le_refl (d : Date) : Date.le d d = true := by
  simp [Date.le]

theorem sum_map_add {α : Type} (l : List α) (f g : α → Nat) :
    (l.map (fun x => f x + g x)).sum = (l.map f).sum + (l.map g).sum := by
  induction l with
  | nil => simp
  | cons a t ih => simp only [List.map_cons, List.sum_cons, ih]; omega

theorem sum_map_ite_of_not_mem {κ : Type} [DecidableEq κ] (a : κ) (l : List κ)
    (h : a ∉ l) : (l.map (fun k => if a = k then 1 else 0)).sum = 0 := by
  induction l with
  | nil => simp
  | cons b t ih =>
    have hab : a ≠ b := fun hc => h (hc ▸ List.mem_cons_self b t)
    have hat : a ∉ t := fun hc => h (List.mem_cons_of_mem b hc)
    simp [hab, ih hat]

theorem sum_map_ite_of_nodup {κ : Type} [DecidableEq κ] (a : κ) (l : List κ)
    (hnd : l.Nodup) (h : a ∈ l) :
    (l.map (fun k => if a = k then 1 else 0)).sum = 1 := by
  induction l with
  | nil => simp at h
  | cons b t ih =>
    rcases List.mem_cons.mp h with hab | hat
    · subst hab
      have : a ∉ t := (List.nodup_cons.mp hnd).1
      simp [sum_map_ite_of_not_mem a t this]
    · have hab : a ≠ b := by
        rintro rfl; exact (List.nodup_cons.mp hnd).1 hat
      simp [hab, ih (List.nodup_cons.mp hnd).2 hat]

theorem sum_countP_dedup {κ : Type} [DecidableEq κ] (ks : List κ) :
    ((ks.dedup).map (fun k => ks.countP (fun x => decide (x = k)))).sum = ks.length := by
  induction ks with
  | nil => simp
  | cons a t ih =>
    by_cases hmem : a ∈ t
    · rw [List.dedup_cons_of_mem hmem]
      have hcong : (t.dedup).map (fun k => (a :: t).countP (fun x => decide (x = k)))
          = (t.dedup).map (fun k =>
              t.countP (fun x => decide (x = k)) + (if a = k then 1 else 0)) := by
        apply List.map_congr_left
        intro k _
        rw [List.countP_cons]
        by_cases hak : a = k <;> simp [hak]
      rw [hcong, sum_map_add, ih,
        sum_map_ite_of_nodup a t.dedup (List.nodup_dedup t) (List.mem_dedup.mpr hmem)]
      simp
    · rw [List.dedup_cons_of_not_mem hmem]
      simp only [List.map_cons, List.sum_cons]
      have h1 : (a :: t).countP (fun x => decide (x = a)) = t.countP (fun x => decide (x = a)) + 1 := by
        rw [List.countP_cons]; simp
      have h2 : t.countP (fun x => decide (x = a)) = 0 := by
        rw [List.countP_eq_zero]
        intro x hx
        simp only [decide_eq_true_eq]
        rintro rfl; exact hmem hx
      have hcong : (t.dedup).map (fun k => (a :: t).countP (fun x => decide (x = k)))
          = (t.dedup).map (fun k => t.countP (fun x => decide (x = k))) := by
        apply List.map_congr_left
        intro k hk
        rw [List.countP_cons]
        have hak : ¬(a = k) := by
          rintro rfl; exact hmem (List.mem_dedup.mp hk)
        simp [hak]
      rw [h1, h2, hcong, ih]
      simp [Nat.add_comm]

theorem groupCounts_sum {α κ : Type} [DecidableEq κ] (f : α → κ) (l : List α) :
    ((groupCounts f l).map (fun p => p.2)).sum = l.length := by
  unfold groupCounts
  rw [List.map_map]
  have hcong : ((l.map f).dedup).map
        ((fun p : κ × Nat => p.2) ∘ fun k => (k, l.countP (fun x => decide (f x = k))))
      = ((l.map f).dedup).map (fun k => (l.map f).countP (fun x => decide (x = k))) := by
    apply List.map_congr_left
    intro k _
    simp only [Function.comp]
    rw [List.countP_map]
    rfl
  rw [hcong, sum_countP_dedup, List.length_map]

theorem lookup_map_pair (g : String → Nat) (ks : List String) (k : String) :
    (ks.map (fun x => (x, g x))).lookup k = if k ∈ ks then some (g k) else none := by
  induction ks with
  | nil => simp
  | cons a t ih =>
    by_cases hka : k = a
    · subst hka; simp [List.lookup]
    · have : (k == a) = false := by simp [hka]
      simp [List.lookup, this, ih, hka]

theorem crime_agg_lookup (cf : List CrimeEvent) (k : String) :
    (crime_agg cf).lookup k =
      if k ∈ cf.map (fun e => e.h3_11)
      then some (cf.countP (fun e => decide (e.h3_11 = k))) else none := by
  unfold crime_agg groupCounts
  rw [lookup_map_pair]
  simp [List.mem_dedup]

theorem sum_map_filter_le {α : Type} (l : List α) (w : α → Nat) (p : α → Bool) :
    ((l.filter p).map w).sum ≤ (l.map w).sum := by
  induction l with
  | nil => simp
  | cons a t ih =>
    cases h : p a <;> simp [List.filter_cons, h] <;> omega

theorem sum_map_filter_partition2 {α : Type} (l : List α) (w : α → Nat) (p q : α → Bool)
    (h : ∀ x ∈ l, (p x = true ∧ q x = false) ∨ (p x = false ∧ q x = true)) :
    ((l.filter p).map w).sum + ((l.filter q).map w).sum = (l.map w).sum := by
  induction l with
  | nil => simp
  | cons a t ih =>
    have ht : ∀ x ∈ t, (p x = true ∧ q x = false) ∨ (p x = false ∧ q x = true) :=
      fun x hx => h x (List.mem_cons_of_mem a hx)
    have iht := ih ht
    rcases h a (List.mem_cons_self a t) with ⟨hp, hq⟩ | ⟨hp, hq⟩ <;>
      simp [List.filter_cons, hp, hq] <;> omega

theorem sum_map_filter_partition3 {α : Type} (l : List α) (w : α → Nat)
    (p q s : α → Bool)
    (h : ∀ x ∈ l, (p x = true ∧ q x = false ∧ s x = false) ∨
      (p x = false ∧ q x = true ∧ s x = false) ∨
      (p x = false ∧ q x = false ∧ s x = true)) :
    ((l.filter p).map w).sum + ((l.filter q).map w).sum + ((l.filter s).map w).sum
      = (l.map w).sum := by
  induction l with
  | nil => simp
  | cons a t ih =>
    have ht : ∀ x ∈ t, (p x = true ∧ q x = false ∧ s x = false) ∨
        (p x = false ∧ q x = true ∧ s x = false) ∨
        (p x = false ∧ q x = false ∧ s x = true) :=
      fun x hx => h x (List.mem_cons_of_mem a hx)
    have iht := ih ht
    rcases h a (List.mem_cons_self a t) with ⟨hp, hq, hs⟩ | ⟨hp, hq, hs⟩ | ⟨hp, hq, hs⟩ <;>
      simp [List.filter_cons, hp, hq, hs] <;> omega

theorem countP_or_disjoint {α : Type} (l : List α) (p q : α → Bool)
    (h : ∀ x ∈ l, ¬(p x = true ∧ q x = true)) :
    l.countP (fun x => p x || q x) = l.countP p + l.countP q := by
  induction l with
  | nil => simp
  | cons a t ih =>
    have ht : ∀ x ∈ t, ¬(p x = true ∧ q x = true) :=
      fun x hx => h x (List.mem_cons_of_mem a hx)
    have iht := ih ht
    rw [List.countP_cons, List.countP_cons, List.countP_cons, iht]
    cases hp : p a <;> cases hq : q a <;> simp_all <;> omega

theorem sum_map_countP_nodup {α κ : Type} [DecidableEq κ] (f : α → κ) (l : List α)
    (ids : List κ) (hnd : ids.Nodup) :
    (ids.map (fun k => l.countP (fun x => decide (f x = k)))).sum
      = l.countP (fun x => decide (f x ∈ ids)) := by
  induction ids with
  | nil => simp
  | cons k t ih =>
    have hknt : k ∉ t := (List.nodup_cons.mp hnd).1
    have iht := ih (List.nodup_cons.mp hnd).2
    have hsplit : l.countP (fun x => decide (f x ∈ k :: t))
        = l.countP (fun x => decide (f x = k) || decide (f x ∈ t)) := by
      apply List.countP_congr
      intro x _
      simp [List.mem_cons]
    rw [List.map_cons, List.sum_cons, iht, hsplit,
      countP_or_disjoint l _ _ (by
        intro x _
        simp only [decide_eq_true_eq, not_and]
        rintro rfl hx
        exact hknt hx)]

theorem monthly_series_sum (l : List CrimeEvent) (g : String) :
    ((monthly_series l g).map (fun r => r.count)).sum = l.length := by
  unfold monthly_series
  rw [List.map_map]
  exact groupCounts_sum toChartMonth l

theorem live_grid_filt_count (grid : List GridCell) (events : List CrimeEvent)
    (r : LiveRow) (hr : r ∈ live_grid_filt (live_grid grid (crime_agg events))) :
    r.count = some (events.countP (fun e => decide (e.h3_11 = r.cell.h3_cell_11))) := by
  have h1 : r ∈ live_grid grid (crime_agg events) := (List.mem_filter.mp hr).1
  have h2 : r.count.isSome = true := (List.mem_filter.mp hr).2
  rcases List.mem_map.mp h1 with ⟨c, _, hrc⟩
  subst hrc
  simp only at h2 ⊢
  rw [crime_agg_lookup] at h2 ⊢
  by_cases hmem : c.h3_cell_11 ∈ events.map (fun e => e.h3_11)
  · simp [hmem]
  · simp [hmem] at h2

theorem bucket_ids_sublist (grid : List GridCell) (agg : List (String × Nat))
    (p : GridCell → Bool) :
    ((bucket_filt (live_grid_filt (live_grid grid agg)) p).map
        (fun r => r.cell.h3_cell_11)).Sublist
      (grid.map (fun c => c.h3_cell_11)) := by
  have hs : (bucket_filt (live_grid_filt (live_grid grid agg)) p).Sublist
      (live_grid grid agg) :=
    (List.filter_sublist _).trans (List.filter_sublist _)
  have hm := hs.map (fun r => r.cell.h3_cell_11)
  rw [live_grid, List.map_map] at hm
  exact hm

/-- C3: the event filter keeps exactly the events whose crime type is selected and
whose calendar date (time-of-day discarded) lies inclusively between start_date and
end_date; an event dated exactly on start_date, or exactly on end_date, is included
whenever its type is selected and the range is non-degenerate. -/
theorem crime_filtered_spec (crime_gdf : List CrimeEvent) (selected_crimes : List String)
    (start_date end_date : Date) (e : CrimeEvent) :
    (e ∈ crime_filtered crime_gdf selected_crimes start_date end_date ↔
      e ∈ crime_gdf ∧ e.crimeType ∈ selected_crimes ∧
        Date.le start_date e.randomDate.date = true ∧
        Date.le e.randomDate.date end_date = true) ∧
    (e ∈ crime_gdf → e.crimeType ∈ selected_crimes →
      Date.le start_date end_date = true → e.randomDate.date = start_date →
      e ∈ crime_filtered crime_gdf selected_crimes start_date end_date) ∧
    (e ∈ crime_gdf → e.crimeType ∈ selected_crimes →
      Date.le start_date end_date = true → e.randomDate.date = end_date →
      e ∈ crime_filtered crime_gdf selected_crimes start_date end_date) := by
  constructor
  · simp [crime_filtered, List.mem_filter, and_assoc]
  · constructor
    · intro hmem hsel hrange hdate
      simp only [crime_filtered, List.mem_filter, Bool.and_eq_true, decide_eq_true_eq]
      exact ⟨hmem, ⟨hsel, by rw [hdate]; exact Date.le_refl _⟩, by rw [hdate]; exact hrange⟩
    · intro hmem hsel hrange hdate
      simp only [crime_filtered, List.mem_filter, Bool.and_eq_true, decide_eq_true_eq]
      exact ⟨hmem, ⟨hsel, by rw [hdate]; exact hrange⟩, by rw [hdate]; exact Date.le_refl _⟩

theorem le_foldr_max (l : List Nat) (x : Nat) (hx : x ∈ l) : x ≤ l.foldr max 0 := by
  induction l with
  | nil => simp at hx
  | cons a t ih =>
    rcases List.mem_cons.mp hx with rfl | hxt
    · simp only [List.foldr_cons]
      exact le_max_left _ _
    · simp only [List.foldr_cons]
      exact le_trans (ih hxt) (le_max_right _ _)

theorem foldr_max_mem (l : List Nat) (h : l ≠ []) : l.foldr max 0 ∈ l := by
  induction l with
  | nil => exact absurd rfl h
  | cons a t ih =>
    cases t with
    | nil => simp
    | cons b t2 =>
      have hne : (b :: t2) ≠ [] := by simp
      have hfold : (a :: b :: t2).foldr max 0 = max a ((b :: t2).foldr max 0) := rfl
      rw [hfold]
      rcases Nat.le_total a ((b :: t2).foldr max 0) with hle | hle
      · rw [Nat.max_eq_right hle]
        exact List.mem_cons_of_mem a (ih hne)
      · rw [Nat.max_eq_left hle]
        exact List.mem_cons_self a _

/-- C1: over every joined, crime-present grid-cell set, the three lighting bucket
totals (light count 0, 1 to 2, above 2) sum to the crime total of the whole set, the
two greenspace bucket totals (count 0, count at least 1) sum to it as well, and each
of the non-exclusive building and land-use-site bucket totals (each defined by an
attribute count of at least 1) is bounded above by that whole-set total. -/
theorem bucket_totals_partition_and_bounds (lg : List LiveRow) :
    nolight lg + lightmid lg + light lg = total_crime_count lg ∧
    nogreenspace lg + greenspace lg = total_crime_count lg ∧
    residential lg ≤ total_crime_count lg ∧
    retail lg ≤ total_crime_count lg ∧
    mixeduse lg ≤ total_crime_count lg ∧
    residential_site lg ≤ total_crime_count lg ∧
    retail_site lg ≤ total_crime_count lg ∧
    industrial_site lg ≤ total_crime_count lg := by
  refine ⟨?_, ?_, ?_, ?_, ?_, ?_, ?_, ?_⟩
  · unfold nolight nolight_filt lightmid lightmid_filt light light_filt total_crime_count
    apply sum_map_filter_partition3
    intro r _
    by_cases h0 : r.cell.lightCount = 0
    · exact Or.inl ⟨by simp [h0], by simp [h0], by simp [h0]⟩
    · by_cases h2 : r.cell.lightCount ≤ 2
      · exact Or.inr (Or.inl ⟨by simp [h0], by simp; omega, by simp; omega⟩)
      · exact Or.inr (Or.inr ⟨by simp [h0], by simp; omega, by simp; omega⟩)
  · unfold nogreenspace nogreenspace_filt greenspace greenspace_filt total_crime_count
    apply sum_map_filter_partition2
    intro r _
    by_cases h0 : r.cell.greenspaceCount = 0
    · exact Or.inl ⟨by simp [h0], by simp [h0]⟩
    · exact Or.inr ⟨by simp [h0], by simp; omega⟩
  · unfold residential residential_filt total_crime_count
    exact sum_map_filter_le _ _ _
  · unfold retail retail_filt total_crime_count
    exact sum_map_filter_le _ _ _
  · unfold mixeduse mixeduse_filt total_crime_count
    exact sum_map_filter_le _ _ _
  · unfold residential_site residential_site_filt total_crime_count
    exact sum_map_filter_le _ _ _
  · unfold retail_site retail_site_filt total_crime_count
    exact sum_map_filter_le _ _ _
  · unfold industrial_site industrial_site_filt total_crime_count
    exact sum_map_filter_le _ _ _

/-- C2: on the concrete grid with cell A (no lights, three crimes), cell B (one light,
two crimes) and cell C (five lights, no crimes), the lighting insight yields the
bucket totals Dark Areas 3, Slightly lit 2, Well Lit 0, and an overall total of 5. -/
theorem lighting_scenario_concrete :
    nolight lgC2 = 3 ∧ lightmid lgC2 = 2 ∧ light lgC2 = 0 ∧
    ((crime_dates eventsC2).map (fun r => r.count)).sum = 5 ∧
    total_crime_count lgC2 = 5 := by
  decide

/-- Witness for crime_filtered_spec: a concrete event dated exactly on the start date
is kept by the filter. -/
theorem crime_filtered_spec_witness :
    evA1 ∈ crime_filtered eventsC2 ["Burglary"] ⟨2024, 1, 15⟩ ⟨2024, 2, 28⟩ :=
  (crime_filtered_spec eventsC2 ["Burglary"] ⟨2024, 1, 15⟩ ⟨2024, 2, 28⟩ evA1).2.1
    (by decide) (by decide) (by decide) (by decide)

/-- C4 counterexample: with no crime type checked, the selection flow evaluates
without error to the empty filtered event set, because selected_crimes is the empty
list initialised at line 462, not an undefined name. -/
theorem fallback_counterexample :
    crime_selection_flow [evA1] (fun _ => false) ⟨2024, 1, 1⟩ ⟨2024, 2, 28⟩
      = Except.ok [] := rfl

/-- C4 amended: when no crime types are selected, the fallback filter of line 502 runs
over the empty selected_crimes list and produces an empty filtered event set, raising
no error. -/
theorem fallback_empty_selection (crime_gdf : List CrimeEvent) (checked : String → Bool)
    (start_date end_date : Date) (h : ∀ c, checked c = false) :
    crime_selection_flow crime_gdf checked start_date end_date = Except.ok [] := by
  unfold crime_selection_flow
  have h1 : ((crime_gdf.map (fun e => e.crimeType)).dedup).filter checked = [] := by
    rw [List.filter_eq_nil_iff]
    intro a _
    simp [h a]
  simp [h1]

/-- Witness for fallback_empty_selection at a concrete event table. -/
theorem fallback_empty_selection_witness :
    crime_selection_flow eventsC2 (fun _ => false) ⟨2024, 1, 1⟩ ⟨2024, 2, 28⟩
      = Except.ok [] :=
  fallback_empty_selection eventsC2 (fun _ => false) ⟨2024, 1, 1⟩ ⟨2024, 2, 28⟩
    (fun _ => rfl)

/-- C5: when the grid-cell identifiers are distinct, every grid cell appears at most
once in the left-join result; every row of the crime-present view carries a present
count; and a cell matching no crime event appears in the full joined table with an
absent count yet is excluded from the crime-present view. -/
theorem grid_join_row_invariants (grid : List GridCell) (events : List CrimeEvent)
    (hnd : (grid.map (fun c => c.h3_cell_11)).Nodup) :
    ((live_grid grid (crime_agg events)).map (fun r => r.cell.h3_cell_11)).Nodup ∧
    (∀ r ∈ live_grid_filt (live_grid grid (crime_agg events)), r.count.isSome = true) ∧
    ∀ c ∈ grid, (∀ e ∈ events, e.h3_11 ≠ c.h3_cell_11) →
      (⟨c, none⟩ : LiveRow) ∈ live_grid grid (crime_agg events) ∧
      (⟨c, none⟩ : LiveRow) ∉ live_grid_filt (live_grid grid (crime_agg events)) := by
  refine ⟨?_, ?_, ?_⟩
  · rw [live_grid, List.map_map]
    exact hnd
  · intro r hr
    exact (List.mem_filter.mp hr).2
  · intro c hc hno
    have hlookup : (crime_agg events).lookup c.h3_cell_11 = none := by
      rw [crime_agg_lookup]
      have hnm : c.h3_cell_11 ∉ events.map (fun e => e.h3_11) := by
        intro hmem
        rcases List.mem_map.mp hmem with ⟨e, he, heq⟩
        exact hno e he heq
      simp [hnm]
    constructor
    · rw [live_grid]
      refine List.mem_map.mpr ⟨c, hc, ?_⟩
      rw [hlookup]
    · intro hmem
      have := (List.mem_filter.mp hmem).2
      simp at this

/-- Witness for grid_join_row_invariants: in the concrete scenario, cell C (without
crimes) is in the joined table with an absent count but not in the crime-present
view. -/
theorem grid_join_row_invariants_witness :
    (⟨cellC, none⟩ : LiveRow) ∈ live_grid gridC2 (crime_agg eventsC2) ∧
    (⟨cellC, none⟩ : LiveRow) ∉ live_grid_filt (live_grid gridC2 (crime_agg eventsC2)) :=
  (grid_join_row_invariants gridC2 eventsC2 (by decide)).2.2 cellC (by decide) (by decide)

/-- C6: the overall monthly series is exactly the filtered events grouped by calendar
month — a row exists precisely for each month occurring among the filtered events,
counts the events of that month, and is labelled "Total crime" — and its per-month
counts sum to the size of the filtered event set. -/
theorem overall_series_total (cf : List CrimeEvent) :
    (∀ row, row ∈ crime_dates cf ↔
      ((∃ e ∈ cf, toChartMonth e = row.chartMonth) ∧
        row.count = cf.countP (fun e => decide (toChartMonth e = row.chartMonth)) ∧
        row.group = "Total crime")) ∧
    ((crime_dates cf).map (fun r => r.count)).sum = cf.length := by
  constructor
  · intro row
    unfold crime_dates monthly_series groupCounts
    rw [List.map_map, List.mem_map]
    constructor
    · rintro ⟨k, hk, rfl⟩
      have hk2 : k ∈ cf.map toChartMonth := List.mem_dedup.mp hk
      rcases List.mem_map.mp hk2 with ⟨e, he, heq⟩
      exact ⟨⟨e, he, heq⟩, rfl, rfl⟩
    · rintro ⟨⟨e, he, hm⟩, hcount, hgroup⟩
      refine ⟨row.chartMonth, List.mem_dedup.mpr (List.mem_map.mpr ⟨e, he, hm⟩), ?_⟩
      rcases row with ⟨m, cnt, grp⟩
      simp only at hcount hgroup ⊢
      rw [hcount, hgroup]
      rfl
  · exact monthly_series_sum cf "Total crime"

/-- Witness for overall_series_total at the concrete scenario events. -/
theorem overall_series_total_witness :
    ((crime_dates eventsC2).map (fun r => r.count)).sum = eventsC2.length :=
  (overall_series_total eventsC2).2

/-- C7: for a non-negative radius, the bounding box of the buffer polygon built with
the degree conversion radius by 111320 contains the centre point. -/
theorem buffer_bounds_contain_center (lon lat r : ℚ) (h : 0 ≤ r) :
    (buffer_bounds lon lat r).containsPoint lon lat := by
  have hd : 0 ≤ radius_degrees r := by
    unfold radius_degrees
    positivity
  simp only [Bounds.containsPoint, buffer_bounds]
  refine ⟨by linarith, by linarith, by linarith, by linarith⟩

/-- Witness for buffer_bounds_contain_center at a concrete point and radius. -/
theorem buffer_bounds_contain_center_witness :
    (0 : ℚ) ≤ 500 ∧ (buffer_bounds (-1) 52 500).containsPoint (-1) 52 :=
  ⟨by norm_num, buffer_bounds_contain_center (-1) 52 500 (by norm_num)⟩

/-- C8: for a non-empty long-format table, the generated trend chart has y-axis lower
bound 0 and upper bound 1.2 times the maximum count across all rows: some row attains
the maximum, dominates every row, and fixes the upper bound. -/
theorem trend_chart_y_scale (df : List SeriesRow) (title : String) (h : df ≠ []) :
    (generate_crime_trend_chart df title).yDomainLo = 0 ∧
    ∃ r ∈ df, (∀ x ∈ df, x.count ≤ r.count) ∧
      (generate_crime_trend_chart df title).yDomainHi = (r.count : ℚ) * (12 / 10) := by
  constructor
  · rfl
  · have hmapne : df.map (fun r => r.count) ≠ [] := by
      intro hc
      exact h (by simpa using hc)
    have hmem := foldr_max_mem (df.map (fun r => r.count)) hmapne
    rcases List.mem_map.mp hmem with ⟨r, hr, hreq⟩
    refine ⟨r, hr, ?_, ?_⟩
    · intro x hx
      have hle := le_foldr_max (df.map (fun r => r.count)) x.count
        (List.mem_map.mpr ⟨x, hx, rfl⟩)
      rw [hreq]
      exact hle
    · simp only [generate_crime_trend_chart]
      rw [hreq]

/-- Witness for trend_chart_y_scale at a concrete non-empty table. -/
theorem trend_chart_y_scale_witness :
    (generate_crime_trend_chart (crime_dates eventsC2) "Monthly Crime Statistics").yDomainLo
      = 0 :=
  (trend_chart_y_scale (crime_dates eventsC2) "Monthly Crime Statistics" (by decide)).1

/-- C9: with a matched address and a zero buffer radius, the sidebar block emits the
notice asking to increase the buffer and issues no spatial query, whatever layers the
user attempted to check. -/
theorem zero_buffer_notice_no_queries (checked : String → Bool) (lon lat : ℚ) :
    sidebar_fetch true true checked lon lat 0
      = ([], ["Please increase buffer size"]) := rfl

/-- C10: for every theme bucket predicate, the headline total — the bucket rows' crime
counts summed — equals the sum over months of the bucket's monthly series counts,
when the per-cell counts come from grouping the same filtered events by cell
identifier and the grid-cell identifiers are distinct. -/
theorem bucket_total_matches_series_sum (grid : List GridCell) (events : List CrimeEvent)
    (p : GridCell → Bool) (g : String)
    (hnd : (grid.map (fun c => c.h3_cell_11)).Nodup) :
    bucket_total (live_grid_filt (live_grid grid (crime_agg events))) p
      = ((bucket_dates events (live_grid_filt (live_grid grid (crime_agg events))) p g).map
          (fun r => r.count)).sum := by
  set lg := live_grid_filt (live_grid grid (crime_agg events)) with hlg
  have hR : ((bucket_dates events lg p g).map (fun r => r.count)).sum
      = (bucket_crimes events lg p).length := by
    unfold bucket_dates
    exact monthly_series_sum _ g
  have hR2 : (bucket_crimes events lg p).length
      = events.countP (fun e =>
          decide (e.h3_11 ∈ (bucket_filt lg p).map (fun r => r.cell.h3_cell_11))) := by
    unfold bucket_crimes
    exact (List.countP_eq_length_filter _ _).symm
  have hmap : (bucket_filt lg p).map (fun r => r.count.getD 0)
      = ((bucket_filt lg p).map (fun r => r.cell.h3_cell_11)).map
          (fun k => events.countP (fun e => decide (e.h3_11 = k))) := by
    rw [List.map_map]
    apply List.map_congr_left
    intro r hr
    have hrlg : r ∈ lg := List.mem_of_mem_filter hr
    rw [hlg] at hrlg
    rw [live_grid_filt_count grid events r hrlg]
    rfl
  have hndids : ((bucket_filt lg p).map (fun r => r.cell.h3_cell_11)).Nodup := by
    rw [hlg]
    exact (bucket_ids_sublist grid (crime_agg events) p).nodup hnd
  calc bucket_total lg p
      = (((bucket_filt lg p).map (fun r => r.cell.h3_cell_11)).map
          (fun k => events.countP (fun e => decide (e.h3_11 = k)))).sum := by
        unfold bucket_total
        rw [hmap]
    _ = events.countP (fun e =>
          decide (e.h3_11 ∈ (bucket_filt lg p).map (fun r => r.cell.h3_cell_11))) :=
        sum_map_countP_nodup _ events _ hndids
    _ = (bucket_crimes events lg p).length := hR2.symm
    _ = ((bucket_dates events lg p g).map (fun r => r.count)).sum := hR.symm

/-- Witness for bucket_total_matches_series_sum: the dark-areas bucket on the concrete
scenario. -/
theorem bucket_total_matches_series_sum_witness :
    bucket_total (live_grid_filt (live_grid gridC2 (crime_agg eventsC2)))
        (fun c => decide (c.lightCount = 0))
      = ((bucket_dates eventsC2 (live_grid_filt (live_grid gridC2 (crime_agg eventsC2)))
          (fun c => decide (c.lightCount = 0)) "Dark Areas").map (fun r => r.count)).sum :=
  bucket_total_matches_series_sum gridC2 eventsC2
    (fun c => decide (c.lightCount = 0)) "Dark Areas" (by decide)

end CrimeDashboard
